import Mathlib

/-!
Verification development for the pandapower-web backend core
(`backend/app/core/powerflow_service.py` and `backend/app/config.py`),
modelled as a shallow embedding.

Conventions of the embedding:
* pandas DataFrames become Lean lists of row structures; the standard
  pandapower result tables (`res_ext_grid`, `res_gen`) always carry their
  `p_mw` / `q_mvar` columns after a solve, so the defensive
  `"p_mw" in df.columns` checks of the source are modelled as always true;
* Python floats become rationals (ℚ); `round(x, n)` becomes rounding of
  `x * 10^n` to the nearest integer (the tie-breaking rule plays no role in
  the statements proved here, since code model and claim model share it);
* external collaborators (the pandapower solver, the format codecs) become
  oracle parameters of type `Except String _` — `.error e` models a raised
  exception whose `str()` is `e`;
* file-system effects are modelled by explicit state passing.
-/

namespace PandapowerWeb

/-! ## Rounding helpers (Python `round(x, 4)` / `round(x, 2)`) -/

def round4 (x : ℚ) : ℚ := (round (x * 10000) : ℤ) / 10000

def round2 (x : ℚ) : ℚ := (round (x * 100) : ℤ) / 100

/-! ## `backend/app/config.py` -/

/-- `FILE_FORMATS` from `config.py`: supported formats and their extensions. -/
def FILE_FORMATS : List (String × List String) :=
  [("json", [".json"]),
   ("excel", [".xlsx", ".xls"]),
   ("pickle", [".p", ".pkl", ".pickle"]),
   ("sqlite", [".sqlite", ".db"])]

/-- `SUPPORTED_EXTENSIONS` from `config.py`: all extensions, in table order. -/
def SUPPORTED_EXTENSIONS : List String :=
  (FILE_FORMATS.map Prod.snd).flatten

/-! ## Iteration-default resolver
(`ALGORITHM_DEFAULT_ITERATIONS` and lines 181-191 of `powerflow_service.py`) -/

/-- The algorithm-keyed default-iteration table from the source, including
its `iwamoto_nr` entry. -/
def ALGORITHM_DEFAULT_ITERATIONS : List (String × Nat) :=
  [("nr", 10),
   ("iwamoto_nr", 10),
   ("bfsw", 100),
   ("gs", 1000),
   ("fdbx", 30),
   ("fdxb", 30)]

def DEFAULT_ITERATION_FALLBACK : Nat := 30

/-- Lines 181-191 of `run_powerflow`: an explicit `max_iteration` is used
verbatim; otherwise the algorithm is looked up in the default table with
`DEFAULT_ITERATION_FALLBACK` as fallback. -/
def resolveMaxIteration (algorithm : String) (max_iteration : Option Nat) : Nat :=
  match max_iteration with
  | some n => n
  | none =>
      ((ALGORITHM_DEFAULT_ITERATIONS.find? (fun p => p.1 = algorithm)).map
        Prod.snd).getD DEFAULT_ITERATION_FALLBACK

/-- The resolver exactly as claim C8 words it: a five-entry table
(nr, bfsw, gs, fdbx, fdxb) and every other algorithm falling back to 30.
This definition follows the claim text, for comparison with
`resolveMaxIteration` (which follows the source). -/
def resolveMaxIterationClaimC8 (algorithm : String) (max_iteration : Option Nat) : Nat :=
  match max_iteration with
  | some n => n
  | none =>
      (([("nr", 10), ("bfsw", 100), ("gs", 1000), ("fdbx", 30), ("fdxb", 30)].find?
          (fun p => p.1 = algorithm)).map Prod.snd).getD 30

/-! ## Format detection (`PowerFlowService.detect_format`, lines 48-55) -/

/-- `Path(filename).suffix`: the final dotted extension of the filename,
empty when the name has no dot (character-level model; the hidden-file and
directory-separator corner cases of `pathlib` play no role here). -/
def fileSuffix (filename : String) : String :=
  if ('.' : Char) ∈ filename.data then
    ⟨'.' :: (filename.data.reverse.takeWhile (fun c => c ≠ '.')).reverse⟩
  else ""

/-- `.lower()` on an extension, character by character. -/
def lowerString (s : String) : String := ⟨s.data.map Char.toLower⟩

/-- `detect_format`: first format whose extension list contains the
lower-cased suffix; `none` for an unrecognized extension. -/
def detect_format (filename : String) : Option String :=
  let ext := lowerString (fileSuffix filename)
  (FILE_FORMATS.find? (fun fe => fe.2.contains ext)).map Prod.fst

/-! ## Result schema (`backend/app/schemas/powerflow.py`) -/

/-- A spreadsheet / table cell: a number or a string. -/
inductive Cell where
  | num (q : ℚ)
  | str (s : String)
deriving DecidableEq, Repr

/-- One row of a `TableData`, as a record of column name / cell pairs
(the Python side uses a dict per row). -/
abbrev RowRecord := List (String × Cell)

/-- `TableData` from the schema module. -/
structure TableData where
  columns : List String
  data : List RowRecord
  row_count : Nat
deriving DecidableEq, Repr

/-- `CalculationLog` from the schema module; optional fields keep their
pydantic defaults. -/
structure CalculationLog where
  algorithm : String
  init_method : String
  tolerance_mva : ℚ
  max_iteration : Nat
  calculation_time_ms : Option ℚ := none
  iterations : Option Nat := none
  warnings : List String := []
  slack_p_mw : Option ℚ := none
  slack_q_mvar : Option ℚ := none
deriving DecidableEq, Repr

/-- `PowerFlowResult` from the schema module; optional fields keep their
pydantic defaults. -/
structure PowerFlowResult where
  converged : Bool
  message : String
  iterations : Option Nat := none
  calculation_log : Option CalculationLog := none
  res_bus : Option TableData := none
  res_line : Option TableData := none
  res_trafo : Option TableData := none
  res_trafo3w : Option TableData := none
  res_load : Option TableData := none
  res_gen : Option TableData := none
  res_sgen : Option TableData := none
  res_ext_grid : Option TableData := none
  res_shunt : Option TableData := none
  max_loading_percent : Option ℚ := none
  min_vm_pu : Option ℚ := none
  max_vm_pu : Option ℚ := none
deriving DecidableEq, Repr

/-! ## Post-solve network state

The slice of the mutated `pandapowerNet` that `run_powerflow` reads after
`pp.runpp` returns (lines 226-270): the convergence flag, the iteration
count from the internal `_ppc` dict, and the tables feeding the slack
aggregation. -/

/-- One row of `net.res_ext_grid` (standard schema: `p_mw`, `q_mvar`). -/
structure ExtGridRes where
  p_mw : ℚ
  q_mvar : ℚ
deriving DecidableEq, Repr

/-- One row of `net.gen`: pandas index plus the `slack` flag column. -/
structure GenRow where
  idx : Nat
  slack : Bool
deriving DecidableEq, Repr

/-- One row of `net.res_gen`: pandas index plus `p_mw`, `q_mvar`. -/
structure GenRes where
  idx : Nat
  p_mw : ℚ
  q_mvar : ℚ
deriving DecidableEq, Repr

/-- The post-solve network state read by `run_powerflow`. -/
structure NetState where
  converged : Bool
  res_ext_grid : List ExtGridRes
  gen : List GenRow
  res_gen : List GenRes
  iterations : Option Nat
deriving DecidableEq, Repr

/-- A completed (non-raising) solver call: the mutated network plus the
warnings captured during the call, in order of emission. -/
structure SolveOk where
  net : NetState
  warnings : List String
deriving DecidableEq, Repr

/-- What `_extract_results` produces besides the hard-coded
`converged := true` and empty message: the nine optional tables and the
three summary statistics (lines 384-434). -/
structure Extracted where
  res_bus : Option TableData := none
  res_line : Option TableData := none
  res_trafo : Option TableData := none
  res_trafo3w : Option TableData := none
  res_load : Option TableData := none
  res_gen : Option TableData := none
  res_sgen : Option TableData := none
  res_ext_grid : Option TableData := none
  res_shunt : Option TableData := none
  max_loading_percent : Option ℚ := none
  min_vm_pu : Option ℚ := none
  max_vm_pu : Option ℚ := none
deriving DecidableEq, Repr

/-! ## Slack aggregation (lines 234-270 of `run_powerflow`) -/

/-- Indices of the generators whose `slack` column is true
(`self.network.gen[slack_gen_mask].index`). -/
def slackGenIndices (net : NetState) : List Nat :=
  (net.gen.filter (fun g => g.slack)).map GenRow.idx

/-- The `res_gen` rows whose index is a slack generator's index
(`res_gen.index.isin(slack_gen_indices)` selection). -/
def slackGenResRows (net : NetState) : List GenRes :=
  net.res_gen.filter (fun r => (slackGenIndices net).contains r.idx)

/-- Lines 234-270: the slack power pair recorded in the calculation log.
Accumulators start at 0 with `has_slack = False`; the external-grid table
contributes when non-empty; the slack-generator branch contributes when the
`gen` table is non-empty, some generator is slack-flagged and `res_gen` is
non-empty; the pair is rounded to 4 decimals when `has_slack`, else both are
`None`. Nothing is computed when the solve did not converge. -/
def computeSlack (net : NetState) : Option ℚ × Option ℚ :=
  if net.converged then
    let slack_p1 : ℚ :=
      if net.res_ext_grid.isEmpty then 0 else (net.res_ext_grid.map ExtGridRes.p_mw).sum
    let slack_q1 : ℚ :=
      if net.res_ext_grid.isEmpty then 0 else (net.res_ext_grid.map ExtGridRes.q_mvar).sum
    let has1 : Bool := !net.res_ext_grid.isEmpty
    let genBranch : Bool :=
      !net.gen.isEmpty && !(slackGenIndices net).isEmpty && !net.res_gen.isEmpty
    let rows := slackGenResRows net
    let slack_p2 : ℚ := if genBranch then slack_p1 + (rows.map GenRes.p_mw).sum else slack_p1
    let slack_q2 : ℚ := if genBranch then slack_q1 + (rows.map GenRes.q_mvar).sum else slack_q1
    let has2 : Bool := has1 || genBranch
    if has2 then (some (round4 slack_p2), some (round4 slack_q2)) else (none, none)
  else (none, none)

/-! ## `run_powerflow` (lines 159-335) -/

/-- The result object built by the `except` handler (lines 315-333):
converged false, a failure message carrying the exception text, and a fresh
calculation log whose warnings list is exactly that text. -/
def failureResult (algorithm initMethod : String) (tolerance_mva : ℚ)
    (resolved : Nat) (calcTimeMs : ℚ) (e : String) : PowerFlowResult :=
  { converged := false
    message := "Power flow calculation failed: " ++ e
    calculation_log := some
      { algorithm := algorithm
        init_method := initMethod
        tolerance_mva := tolerance_mva
        max_iteration := resolved
        calculation_time_ms := some (round2 calcTimeMs)
        warnings := [e] } }

/-- `run_powerflow`, with the external solver and the (possibly raising)
result extraction as oracle parameters. `solver = .error e` models
`pp.runpp` raising an exception with text `e`; `extract net = .error e`
models `_extract_results` raising after a converged solve. The wall-clock
duration is a parameter, since time is external. -/
def runPowerflow (algorithm initMethod : String) (tolerance_mva : ℚ)
    (max_iteration : Option Nat)
    (solver : Except String SolveOk)
    (extract : NetState → Except String Extracted)
    (calcTimeMs : ℚ) : PowerFlowResult :=
  let resolved := resolveMaxIteration algorithm max_iteration
  match solver with
  | .error e => failureResult algorithm initMethod tolerance_mva resolved calcTimeMs e
  | .ok s =>
      let net := s.net
      let slack := computeSlack net
      let calcLog : CalculationLog :=
        { algorithm := algorithm
          init_method := initMethod
          tolerance_mva := tolerance_mva
          max_iteration := resolved
          calculation_time_ms := some (round2 calcTimeMs)
          iterations := net.iterations
          warnings := s.warnings
          slack_p_mw := slack.1
          slack_q_mvar := slack.2 }
      if net.converged then
        match extract net with
        | .error e =>
            failureResult algorithm initMethod tolerance_mva resolved calcTimeMs e
        | .ok ex =>
            { converged := true
              message := "Power flow converged successfully"
              calculation_log := some calcLog
              res_bus := ex.res_bus
              res_line := ex.res_line
              res_trafo := ex.res_trafo
              res_trafo3w := ex.res_trafo3w
              res_load := ex.res_load
              res_gen := ex.res_gen
              res_sgen := ex.res_sgen
              res_ext_grid := ex.res_ext_grid
              res_shunt := ex.res_shunt
              max_loading_percent := ex.max_loading_percent
              min_vm_pu := ex.min_vm_pu
              max_vm_pu := ex.max_vm_pu }
      else
        { converged := false
          message := "Power flow did not converge"
          calculation_log := some
            { calcLog with warnings := calcLog.warnings ++ ["Power flow did not converge"] } }

/-! ## Excel export (`export_results_to_excel`, lines 440-489) -/

/-- One worksheet: its name and its rows of cells. -/
structure Sheet where
  name : String
  rows : List (List Cell)
deriving DecidableEq, Repr

/-- Python truthiness-based substitution `value or "N/A"` applied to an
optional float: `None` is falsy, and so is the float `0.0`. -/
def pyOrNA (v : Option ℚ) : Cell :=
  match v with
  | none => Cell.str "N/A"
  | some q => if q = 0 then Cell.str "N/A" else Cell.num q

/-- A table sheet holds the `TableData.data` rows, one cell per record
value (`pd.DataFrame(table_data.data).to_excel`). -/
def tableSheet (name : String) (t : TableData) : Sheet :=
  { name := name, rows := t.data.map (fun r => r.map Prod.snd) }

/-- `export_results_to_excel`: raises `ValueError` when no results are
cached or they did not converge; otherwise one sheet per cached table that
is present with a positive `row_count`, in the fixed source order, followed
by the `Summary` sheet with its four metric rows. -/
def export_results_to_excel (results : Option PowerFlowResult) :
    Except String (List Sheet) :=
  match results with
  | none => Except.error "No converged results available to export"
  | some r =>
      if !r.converged then Except.error "No converged results available to export"
      else
        let result_tables : List (String × Option TableData) :=
          [("res_bus", r.res_bus),
           ("res_line", r.res_line),
           ("res_trafo", r.res_trafo),
           ("res_trafo3w", r.res_trafo3w),
           ("res_load", r.res_load),
           ("res_gen", r.res_gen),
           ("res_sgen", r.res_sgen),
           ("res_ext_grid", r.res_ext_grid),
           ("res_shunt", r.res_shunt)]
        let tableSheets : List Sheet :=
          result_tables.filterMap (fun nt =>
            match nt.2 with
            | some t => if t.row_count > 0 then some (tableSheet nt.1 t) else none
            | none => none)
        let summary : Sheet :=
          { name := "Summary"
            rows :=
              [[Cell.str "Converged", Cell.str (if r.converged then "Yes" else "No")],
               [Cell.str "Max Loading (%)", pyOrNA r.max_loading_percent],
               [Cell.str "Min Voltage (p.u.)", pyOrNA r.min_vm_pu],
               [Cell.str "Max Voltage (p.u.)", pyOrNA r.max_vm_pu]] }
        Except.ok (tableSheets ++ [summary])

/-! ## Session store (lines 492-620)

A session file holds the pickled tuple
`{network, filename, file_format, results}`; the store itself is an
association list from session id to that record, newest first. The network
and result payloads are type parameters: the store never inspects them. -/

/-- The four fields `create_session` serializes; also the in-memory state
of a `PowerFlowService` (its constructor arguments plus `_results`). -/
structure ServiceState (Net Res : Type) where
  network : Net
  filename : String
  file_format : String
  results : Option Res
deriving DecidableEq, Repr

/-- The durable store: one record per session id. -/
abbrev SessionStore (Net Res : Type) := List (String × ServiceState Net Res)

/-- `create_session`: writes `{network, filename, file_format, results}`
under a fresh id (the uuid is external, passed as `session_id`) and returns
the id. -/
def create_session (store : SessionStore Net Res) (session_id : String)
    (service : ServiceState Net Res) : SessionStore Net Res × String :=
  ((session_id,
    { network := service.network
      filename := service.filename
      file_format := service.file_format
      results := service.results }) :: store,
   session_id)

/-- `get_session`: `none` when no record exists; otherwise reconstructs the
service from the stored record and restores its cached results. -/
def get_session (store : SessionStore Net Res) (session_id : String) :
    Option (ServiceState Net Res) :=
  match store.find? (fun kv => kv.1 = session_id) with
  | none => none
  | some kv =>
      some { network := kv.2.network
             filename := kv.2.filename
             file_format := kv.2.file_format
             results := kv.2.results }

/-- `update_session`: false without effect when no record exists, else
overwrites the record in place. -/
def update_session (store : SessionStore Net Res) (session_id : String)
    (service : ServiceState Net Res) : SessionStore Net Res × Bool :=
  if (store.find? (fun kv => kv.1 = session_id)).isNone then (store, false)
  else
    (store.map (fun kv =>
      if kv.1 = session_id then
        (kv.1,
         { network := service.network
           filename := service.filename
           file_format := service.file_format
           results := service.results })
      else kv),
     true)

/-! ## Byte-level write model for the session file (claim C2)

`create_session` and `update_session` write with
`open(session_path, "wb")` followed by `pickle.dump`: opening with mode
`wb` truncates the file, and the payload is then appended. A concurrent
reader of the same path observes the file contents after any prefix of
these steps. Write-replace would instead write a temporary path and rename
it onto the session path. -/

/-- File-system operations relevant to a session write. -/
inductive FsOp where
  | openTrunc (path : String)
  | writeBytes (path : String) (bytes : List Nat)
  | rename (src dst : String)
deriving DecidableEq, Repr

/-- Contents of every path: `none` means the path does not exist. -/
abbrev FileMap := String → Option (List Nat)

/-- Effect of one operation on the file map. -/
def applyOp (fs : FileMap) : FsOp → FileMap
  | FsOp.openTrunc p => fun q => if q = p then some [] else fs q
  | FsOp.writeBytes p b => fun q => if q = p then some ((fs p).getD [] ++ b) else fs q
  | FsOp.rename s d => fun q => if q = d then fs s else if q = s then none else fs q

/-- The write sequence actually performed by `create_session` /
`update_session` on the session path (lines 517-518 and 582-583): open the
session file itself with mode `wb` (truncate), then write the pickled
bytes. -/
def sessionWriteOps (session_path : String) (payload : List Nat) : List FsOp :=
  [FsOp.openTrunc session_path, FsOp.writeBytes session_path payload]

/-- The write-replace sequence the claim describes: write a new temporary
location, then atomically rename it onto the session path. -/
def writeReplaceOps (tmp_path session_path : String) (payload : List Nat) : List FsOp :=
  [FsOp.openTrunc tmp_path, FsOp.writeBytes tmp_path payload,
   FsOp.rename tmp_path session_path]

/-- The file contents a reader of `path` can observe while `ops` execute:
one observation per intermediate file-map state, initial state included. -/
def observableContents (fs : FileMap) (ops : List FsOp) (path : String) :
    List (Option (List Nat)) :=
  (ops.scanl applyOp fs).map (fun f => f path)

/-! ## Network loading (`PowerFlowService.load_network`, lines 57-141) -/

/-- The slice of a deserialized `pandapowerNet` that `load_network`
validates: its element-table sizes. -/
structure PPNet where
  n_bus : Nat
  n_line : Nat
deriving DecidableEq, Repr

/-- What a format codec (`pp.from_json` / `from_excel` / `from_pickle` /
`from_sqlite`) can hand back without raising: a pandapower network, or some
other object (the `isinstance` check's target). -/
inductive LoadedObj where
  | net (n : PPNet)
  | notNet
deriving DecidableEq, Repr

/-- A format codec: given the format tag and the uploaded bytes (the source
round-trips them through a scratch file), either a loaded object or a
raised exception's text. -/
abbrev Codec := String → List Nat → Except String LoadedObj

/-- Process-local scratch storage: the set of scratch paths that exist. -/
structure ScratchState where
  files : List String
deriving DecidableEq, Repr

/-- `load_network` (lines 57-141) with explicit scratch-file accounting.
Format detection failure raises before any scratch file exists; otherwise
the uploaded bytes go to a scratch file, the `try` body dispatches on the
format, validates the `isinstance` and the at-least-one-bus conditions, and
the `finally` clause unlinks the scratch file on every path. Returns the
loaded service (results `none`) or the raised `ValueError` text, paired
with the scratch state at return. -/
def load_network (codec : Codec) (content : List Nat) (filename tmp_path : String)
    (fs : ScratchState) :
    Except String (ServiceState PPNet PowerFlowResult) × ScratchState :=
  match detect_format filename with
  | none =>
      (Except.error ("Unsupported file format. Supported formats: " ++
        String.intercalate ", " SUPPORTED_EXTENSIONS), fs)
  | some file_format =>
      let fs1 : ScratchState := ⟨tmp_path :: fs.files⟩
      let body : Except String (ServiceState PPNet PowerFlowResult) :=
        if ["json", "excel", "pickle", "sqlite"].contains file_format then
          match codec file_format content with
          | Except.error e => Except.error ("Failed to load network: " ++ e)
          | Except.ok LoadedObj.notNet =>
              Except.error "File does not contain a valid pandapower network"
          | Except.ok (LoadedObj.net n) =>
              if n.n_bus = 0 then
                Except.error "Network must contain at least one bus"
              else
                Except.ok
                  { network := n
                    filename := filename
                    file_format := file_format
                    results := none }
        else Except.error ("Unknown format: " ++ file_format)
      (body, ⟨fs1.files.erase tmp_path⟩)

/-! ## Concrete inputs used by witnesses and counterexamples -/

/-- A converged result whose maximum loading is exactly 0 — a valid
computed value per the schema (`max_loading_percent : Optional[float]`). -/
def zeroLoadingResult : PowerFlowResult :=
  { converged := true
    message := "Power flow converged successfully"
    res_bus := some
      { columns := ["idx", "vm_pu"]
        data := [[("idx", Cell.num 0), ("vm_pu", Cell.num 1)]]
        row_count := 1 }
    max_loading_percent := some 0
    min_vm_pu := some 1
    max_vm_pu := some 1 }

/-- A converged network with one external grid (5 MW, 7 Mvar) and one
slack-flagged generator whose result row carries 2 MW, 3 Mvar. -/
def c1Net : NetState :=
  { converged := true
    res_ext_grid := [{ p_mw := 5, q_mvar := 7 }]
    gen := [{ idx := 0, slack := true }]
    res_gen := [{ idx := 0, p_mw := 2, q_mvar := 3 }]
    iterations := some 3 }

/-- An extraction oracle that always succeeds with empty tables. -/
def extractOk : NetState → Except String Extracted := fun _ => Except.ok {}

/-- An extraction oracle that always raises. -/
def extractRaises : NetState → Except String Extracted :=
  fun _ => Except.error "extraction blew up"

/-- A codec that deserializes every input to a zero-bus network. -/
def zeroBusCodec : Codec := fun _ _ => Except.ok (LoadedObj.net { n_bus := 0, n_line := 0 })

/-! # Theorems -/

/-! ## Supporting lemmas -/

theorem gen_ne_nil_of_slackGenIndices (net : NetState)
    (h : slackGenIndices net ≠ []) : net.gen ≠ [] := by
  intro hg
  exact h (by simp [slackGenIndices, hg])

theorem slackGenResRows_eq_nil_left (net : NetState)
    (h : slackGenIndices net = []) : slackGenResRows net = [] := by
  simp [slackGenResRows, h]

theorem slackGenResRows_eq_nil_right (net : NetState)
    (h : net.res_gen = []) : slackGenResRows net = [] := by
  simp [slackGenResRows, h]

theorem slackGenResRows_ne_nil (net : NetState)
    (hidx : net.res_gen.map GenRes.idx = net.gen.map GenRow.idx) :
    slackGenResRows net ≠ [] ↔ slackGenIndices net ≠ [] ∧ net.res_gen ≠ [] := by
  constructor
  · intro h
    refine ⟨?_, ?_⟩
    · intro hI; exact h (slackGenResRows_eq_nil_left net hI)
    · intro hR; exact h (slackGenResRows_eq_nil_right net hR)
  · rintro ⟨hI, -⟩
    obtain ⟨i, hi⟩ := List.exists_mem_of_ne_nil _ hI
    have hiG : i ∈ net.gen.map GenRow.idx := by
      simp only [slackGenIndices, List.mem_map, List.mem_filter] at hi
      obtain ⟨g, ⟨hg, _⟩, rfl⟩ := hi
      exact List.mem_map_of_mem GenRow.idx hg
    rw [← hidx] at hiG
    obtain ⟨r, hrR, hri⟩ := List.mem_map.mp hiG
    intro hnil
    have hmem : r ∈ slackGenResRows net := by
      refine List.mem_filter.mpr ⟨hrR, ?_⟩
      exact List.elem_eq_true_of_mem (hri ▸ hi)
    rw [hnil] at hmem
    exact List.not_mem_nil r hmem

theorem computeSlack_spec (net : NetState) (hconv : net.converged = true)
    (hidx : net.res_gen.map GenRes.idx = net.gen.map GenRow.idx) :
    computeSlack net =
      if net.res_ext_grid ≠ [] ∨ slackGenResRows net ≠ [] then
        (some (round4 ((net.res_ext_grid.map ExtGridRes.p_mw).sum +
                       ((slackGenResRows net).map GenRes.p_mw).sum)),
         some (round4 ((net.res_ext_grid.map ExtGridRes.q_mvar).sum +
                       ((slackGenResRows net).map GenRes.q_mvar).sum)))
      else (none, none) := by
  unfold computeSlack
  rw [if_pos hconv]
  by_cases hR : slackGenResRows net = []
  · have hgb : (!net.gen.isEmpty && !(slackGenIndices net).isEmpty &&
        !net.res_gen.isEmpty) = false := by
      rcases Bool.eq_false_or_eq_true
          (!net.gen.isEmpty && !(slackGenIndices net).isEmpty && !net.res_gen.isEmpty) with h | h
      · exfalso
        simp only [Bool.and_eq_true, Bool.not_eq_eq_eq_not, Bool.not_true,
          List.isEmpty_eq_false] at h
        exact ((slackGenResRows_ne_nil net hidx).mpr ⟨h.1.2, h.2⟩) hR
      · exact h
    rw [hgb]
    simp only [if_false, Bool.false_eq_true]
    by_cases hE : net.res_ext_grid = []
    · have : net.res_ext_grid.isEmpty = true := by simp [hE]
      rw [this]
      simp [hE, hR]
    · have : net.res_ext_grid.isEmpty = false := by simp [hE]
      rw [this]
      simp [hE, hR]
  · have hIR : slackGenIndices net ≠ [] ∧ net.res_gen ≠ [] :=
      (slackGenResRows_ne_nil net hidx).mp hR
    have hG : net.gen ≠ [] := gen_ne_nil_of_slackGenIndices net hIR.1
    have hgb : (!net.gen.isEmpty && !(slackGenIndices net).isEmpty &&
        !net.res_gen.isEmpty) = true := by
      simp only [Bool.and_eq_true, Bool.not_eq_eq_eq_not, Bool.not_true,
        List.isEmpty_eq_false]
      exact ⟨⟨hG, hIR.1⟩, hIR.2⟩
    rw [hgb]
    by_cases hE : net.res_ext_grid = []
    · have : net.res_ext_grid.isEmpty = true := by simp [hE]
      rw [this]
      simp [hE, hR]
    · have : net.res_ext_grid.isEmpty = false := by simp [hE]
      rw [this]
      simp [hE, hR]

/-- C1: after a `run_powerflow` whose solve converged (and whose result
extraction completed), the calculation log's `slack_p_mw` is the sum of
`p_mw` over the external-grid result rows plus the sum over the result rows
of slack-flagged generators, rounded to 4 decimals, and `slack_q_mvar`
likewise for `q_mvar`; both fields are absent exactly when neither class of
element has any result rows, and they are always both present or both
absent. The hypothesis `hidx` states the pandapower invariant that the
solver populates `res_gen` with one row per generator, index-aligned. -/
theorem c1_slack_aggregation (algorithm initMethod : String) (tol t : ℚ)
    (maxIt : Option Nat) (s : SolveOk) (extract : NetState → Except String Extracted)
    (ex : Extracted)
    (hconv : s.net.converged = true)
    (hex : extract s.net = Except.ok ex)
    (hidx : s.net.res_gen.map GenRes.idx = s.net.gen.map GenRow.idx) :
    ∃ log,
      (runPowerflow algorithm initMethod tol maxIt (Except.ok s) extract t).calculation_log
        = some log ∧
      log.slack_p_mw =
        (if s.net.res_ext_grid ≠ [] ∨ slackGenResRows s.net ≠ [] then
          some (round4 ((s.net.res_ext_grid.map ExtGridRes.p_mw).sum +
                        ((slackGenResRows s.net).map GenRes.p_mw).sum))
        else none) ∧
      log.slack_q_mvar =
        (if s.net.res_ext_grid ≠ [] ∨ slackGenResRows s.net ≠ [] then
          some (round4 ((s.net.res_ext_grid.map ExtGridRes.q_mvar).sum +
                        ((slackGenResRows s.net).map GenRes.q_mvar).sum))
        else none) ∧
      (log.slack_p_mw = none ↔ log.slack_q_mvar = none) := by
  have hcs := computeSlack_spec s.net hconv hidx
  simp only [runPowerflow, hconv, hex, if_true]
  refine ⟨_, rfl, ?_, ?_, ?_⟩
  · show (computeSlack s.net).1 = _
    rw [hcs]
    by_cases hcond : s.net.res_ext_grid ≠ [] ∨ slackGenResRows s.net ≠ []
    · rw [if_pos hcond, if_pos hcond]
    · rw [if_neg hcond, if_neg hcond]
  · show (computeSlack s.net).2 = _
    rw [hcs]
    by_cases hcond : s.net.res_ext_grid ≠ [] ∨ slackGenResRows s.net ≠ []
    · rw [if_pos hcond, if_pos hcond]
    · rw [if_neg hcond, if_neg hcond]
  · show (computeSlack s.net).1 = none ↔ (computeSlack s.net).2 = none
    rw [hcs]
    by_cases hcond : s.net.res_ext_grid ≠ [] ∨ slackGenResRows s.net ≠ []
    · rw [if_pos hcond]; simp
    · rw [if_neg hcond]

/-- C1 witness: one external grid (5 MW, 7 Mvar) and one slack generator
(2 MW, 3 Mvar) give `slack_p_mw = 7`, `slack_q_mvar = 10`. -/
theorem c1_witness :
    ∃ log,
      (runPowerflow "nr" "auto" 1 none (Except.ok { net := c1Net, warnings := [] })
          extractOk 0).calculation_log = some log ∧
      log.slack_p_mw = some 7 ∧ log.slack_q_mvar = some 10 := by
  obtain ⟨log, hlog, hp, hq, -⟩ :=
    c1_slack_aggregation "nr" "auto" 1 0 none { net := c1Net, warnings := [] }
      extractOk {} rfl rfl rfl
  refine ⟨log, hlog, ?_, ?_⟩
  · rw [hp, if_pos (Or.inl (by simp [c1Net]))]
    simp [c1Net, slackGenResRows, slackGenIndices, round4]
    norm_num [round_eq]
  · rw [hq, if_pos (Or.inl (by simp [c1Net]))]
    simp [c1Net, slackGenResRows, slackGenIndices, round4]
    norm_num [round_eq]

/-- C2: the session write performed by `create_session` / `update_session`
(open the session path itself with mode `wb`, then write the pickled
payload) is not write-replace: a reader of the session path can observe the
truncated (empty) file, a state that is neither the complete pre-update
record `[1]` nor the complete post-update record `[2]`. -/
theorem c2_inplace_session_write_torn :
    observableContents (fun q => if q = "deadbeef.pkl" then some [1] else none)
        (sessionWriteOps "deadbeef.pkl" [2]) "deadbeef.pkl" =
      [some [1], some [], some [2]] ∧
    (some ([] : List Nat) ≠ some [1] ∧ some ([] : List Nat) ≠ some [2]) := by
  exact ⟨by decide, by decide, by decide⟩

/-- C3: a converged result whose `max_loading_percent` is the present value
0 is exported with the sentinel `N/A` in the Max Loading summary row — the
Python `value or "N/A"` substitution treats the float 0.0 as falsy — while
the claim requires every present numeric value, including 0, to appear as
that value. The present values 1 do appear as numbers. -/
theorem c3_zero_loading_exported_as_na :
    zeroLoadingResult.max_loading_percent = some 0 ∧
    export_results_to_excel (some zeroLoadingResult) =
      Except.ok
        [{ name := "res_bus", rows := [[Cell.num 0, Cell.num 1]] },
         { name := "Summary"
           rows := [[Cell.str "Converged", Cell.str "Yes"],
                    [Cell.str "Max Loading (%)", Cell.str "N/A"],
                    [Cell.str "Min Voltage (p.u.)", Cell.num 1],
                    [Cell.str "Max Voltage (p.u.)", Cell.num 1]] }] ∧
    Cell.str "N/A" ≠ Cell.num 0 := by
  exact ⟨by decide, by rfl, by decide⟩

/-- C4: a solver exception with text `e` is not propagated: `run_powerflow`
returns a result with `converged = false`, a message stating calculation
failure with `e`, and a calculation log whose warnings list is exactly
`[e]`. -/
theorem c4_solver_exception_contained (algorithm initMethod : String)
    (tol t : ℚ) (maxIt : Option Nat)
    (extract : NetState → Except String Extracted) (e : String) :
    (runPowerflow algorithm initMethod tol maxIt (Except.error e) extract t).converged
        = false ∧
    (runPowerflow algorithm initMethod tol maxIt (Except.error e) extract t).message
        = "Power flow calculation failed: " ++ e ∧
    (runPowerflow algorithm initMethod tol maxIt (Except.error e) extract t).calculation_log.map
        CalculationLog.warnings = some [e] := by
  exact ⟨rfl, rfl, rfl⟩

/-- C5: `run_powerflow` is total — both failure sources (the solver raising
and the result extraction raising after a converged solve) are converted to
a returned `failureResult` carrying the exception text in its message and
warnings — and a returned `converged = true` holds exactly when the solver
completed with the convergence flag set and the extraction completed
without error. -/
theorem c5_total_failure_conversion (algorithm initMethod : String) (tol t : ℚ)
    (maxIt : Option Nat) (solver : Except String SolveOk)
    (extract : NetState → Except String Extracted) :
    ((runPowerflow algorithm initMethod tol maxIt solver extract t).converged = true ↔
      ∃ s ex, solver = Except.ok s ∧ s.net.converged = true ∧
        extract s.net = Except.ok ex) ∧
    (∀ e, solver = Except.error e →
      runPowerflow algorithm initMethod tol maxIt solver extract t =
        failureResult algorithm initMethod tol (resolveMaxIteration algorithm maxIt) t e) ∧
    (∀ s e, solver = Except.ok s → s.net.converged = true →
      extract s.net = Except.error e →
      runPowerflow algorithm initMethod tol maxIt solver extract t =
        failureResult algorithm initMethod tol (resolveMaxIteration algorithm maxIt) t e) := by
  refine ⟨⟨?_, ?_⟩, ?_, ?_⟩
  · intro h
    cases solver with
    | error e => exact absurd h (by simp [runPowerflow, failureResult])
    | ok s =>
        by_cases hc : s.net.converged = true
        · cases hx : extract s.net with
          | error e => exact absurd h (by simp [runPowerflow, hc, hx, failureResult])
          | ok ex => exact ⟨s, ex, rfl, hc, hx⟩
        · have hc2 : s.net.converged = false := by simpa using hc
          exact absurd h (by simp [runPowerflow, hc2])
  · rintro ⟨s, ex, rfl, hc, hx⟩
    simp [runPowerflow, hc, hx]
  · rintro e rfl
    rfl
  · rintro s e rfl hc hx
    simp [runPowerflow, hc, hx, failureResult]

/-- C5 witness: a converged solve with successful extraction returns
`converged = true`; a raising solver returns the failure object. -/
theorem c5_witness :
    (runPowerflow "nr" "auto" 1 none (Except.ok { net := c1Net, warnings := [] })
        extractOk 0).converged = true ∧
    runPowerflow "nr" "auto" 1 none (Except.error "boom") extractOk 0 =
      failureResult "nr" "auto" 1 (resolveMaxIteration "nr" none) 0 "boom" := by
  constructor
  · exact (c5_total_failure_conversion "nr" "auto" 1 0 none
      (Except.ok { net := c1Net, warnings := [] }) extractOk).1.mpr
      ⟨{ net := c1Net, warnings := [] }, {}, rfl, rfl, rfl⟩
  · exact (c5_total_failure_conversion "nr" "auto" 1 0 none
      (Except.error "boom") extractOk).2.1 "boom" rfl

/-- C6: every result with `converged = false` has all nine per-table fields
absent and a calculation log whose warnings list is non-empty, containing
the fixed non-convergence notice (non-converged path) or the causing
exception's text (solver or extraction raised). -/
theorem c6_nonconverged_result_invariant (algorithm initMethod : String)
    (tol t : ℚ) (maxIt : Option Nat) (solver : Except String SolveOk)
    (extract : NetState → Except String Extracted) (r : PowerFlowResult)
    (hr : r = runPowerflow algorithm initMethod tol maxIt solver extract t)
    (hfalse : r.converged = false) :
    r.res_bus = none ∧ r.res_line = none ∧ r.res_trafo = none ∧
    r.res_trafo3w = none ∧ r.res_load = none ∧ r.res_gen = none ∧
    r.res_sgen = none ∧ r.res_ext_grid = none ∧ r.res_shunt = none ∧
    ∃ log, r.calculation_log = some log ∧ log.warnings ≠ [] ∧
      ("Power flow did not converge" ∈ log.warnings ∨
       ∃ e, e ∈ log.warnings ∧
         (solver = Except.error e ∨
          ∃ s, solver = Except.ok s ∧ extract s.net = Except.error e)) := by
  subst hr
  cases solver with
  | error e =>
      refine ⟨rfl, rfl, rfl, rfl, rfl, rfl, rfl, rfl, rfl, ?_⟩
      exact ⟨_, rfl, by simp, Or.inr ⟨e, by simp, Or.inl rfl⟩⟩
  | ok s =>
      by_cases hc : s.net.converged = true
      · cases hx : extract s.net with
        | error e =>
            have hred : runPowerflow algorithm initMethod tol maxIt (Except.ok s)
                extract t = failureResult algorithm initMethod tol
                  (resolveMaxIteration algorithm maxIt) t e := by
              simp [runPowerflow, hc, hx]
            rw [hred]
            refine ⟨rfl, rfl, rfl, rfl, rfl, rfl, rfl, rfl, rfl, ?_⟩
            exact ⟨_, rfl, by simp, Or.inr ⟨e, by simp, Or.inr ⟨s, rfl, hx⟩⟩⟩
        | ok ex =>
            exfalso
            simp [runPowerflow, hc, hx] at hfalse
      · have hc2 : s.net.converged = false := by simpa using hc
        refine ⟨?_, ?_, ?_, ?_, ?_, ?_, ?_, ?_, ?_, ?_⟩ <;>
          simp only [runPowerflow, hc2, Bool.false_eq_true, if_false]
        exact ⟨_, rfl, by simp, Or.inl (by simp)⟩

/-- C6 witness: a raising solver yields a non-converged result satisfying
the invariant. -/
theorem c6_witness :
    ∃ log,
      (runPowerflow "nr" "auto" 1 none (Except.error "boom") extractOk
          0).calculation_log = some log ∧
      log.warnings ≠ [] ∧
      ("Power flow did not converge" ∈ log.warnings ∨
       ∃ e, e ∈ log.warnings ∧
         ((Except.error "boom" : Except String SolveOk) = Except.error e ∨
          ∃ s, (Except.error "boom" : Except String SolveOk) = Except.ok s ∧
            extractOk s.net = Except.error e)) :=
  (c6_nonconverged_result_invariant "nr" "auto" 1 0 none (Except.error "boom")
    extractOk _ rfl rfl).2.2.2.2.2.2.2.2.2

/-- C7 counterexample: `create_session` stores the service's cached
`_results` verbatim, not null — creating a session from a service that
already holds a result and reading it back yields that result, not `none`,
refuting the claim for that service. -/
theorem c7_counterexample :
    (get_session
        (create_session ([] : SessionStore Nat Nat) "sid-1"
          { network := 0, filename := "grid.json", file_format := "json",
            results := some 7 }).1
        "sid-1").map ServiceState.results = some (some 7) ∧
    (some (some 7) : Option (Option Nat)) ≠ some none := by
  exact ⟨by decide, by decide⟩

/-- C7 amended: a session created via `create_session` is retrievable via
`get_session` under the returned identifier, with identical `network`,
`filename` and `file_format`, and with `results` equal to the creating
service's cached results — which is `none` exactly when the service has not
run a calculation. -/
theorem c7_create_then_get (Net Res : Type) (store : SessionStore Net Res)
    (session_id : String) (service : ServiceState Net Res) :
    get_session (create_session store session_id service).1
      (create_session store session_id service).2 = some service := by
  cases service with
  | mk n f ff r => simp [create_session, get_session]

/-- C8 counterexample: the source's default table also maps `iwamoto_nr`
to 10, while the claim's five-entry table sends every algorithm outside
{nr, bfsw, gs, fdbx, fdxb} to the fallback 30. -/
theorem c8_counterexample :
    resolveMaxIteration "iwamoto_nr" none = 10 ∧
    resolveMaxIterationClaimC8 "iwamoto_nr" none = 30 ∧ (10 : Nat) ≠ 30 := by
  exact ⟨by decide, by decide, by decide⟩

/-- C8 amended: an explicit `max_iteration` is used verbatim; otherwise the
cap comes from the static table nr → 10, iwamoto_nr → 10, bfsw → 100,
gs → 1000, fdbx → 30, fdxb → 30, with any algorithm outside the table
falling back to the constant 30; and every `run_powerflow` outcome records
the resolved cap as the calculation log's `max_iteration`. -/
theorem c8_iteration_resolution (alg unknownAlg initMethod : String)
    (tol t : ℚ) (n : Nat) (maxIt : Option Nat) (solver : Except String SolveOk)
    (extract : NetState → Except String Extracted)
    (hu : unknownAlg ∉ ALGORITHM_DEFAULT_ITERATIONS.map Prod.fst) :
    resolveMaxIteration alg (some n) = n ∧
    resolveMaxIteration "nr" none = 10 ∧
    resolveMaxIteration "iwamoto_nr" none = 10 ∧
    resolveMaxIteration "bfsw" none = 100 ∧
    resolveMaxIteration "gs" none = 1000 ∧
    resolveMaxIteration "fdbx" none = 30 ∧
    resolveMaxIteration "fdxb" none = 30 ∧
    resolveMaxIteration unknownAlg none = DEFAULT_ITERATION_FALLBACK ∧
    (runPowerflow alg initMethod tol maxIt solver extract t).calculation_log.map
      CalculationLog.max_iteration = some (resolveMaxIteration alg maxIt) := by
  refine ⟨rfl, by decide, by decide, by decide, by decide, by decide, by decide, ?_, ?_⟩
  · have hfind : ALGORITHM_DEFAULT_ITERATIONS.find? (fun p => p.1 = unknownAlg) = none := by
      rw [List.find?_eq_none]
      intro x hx
      simp only [decide_eq_true_eq]
      intro h1
      exact hu (h1 ▸ List.mem_map_of_mem Prod.fst hx)
    simp [resolveMaxIteration, hfind]
  · cases solver with
    | error e => rfl
    | ok s =>
        by_cases hc : s.net.converged = true
        · cases hx : extract s.net with
          | error e => simp [runPowerflow, hc, hx, failureResult]
          | ok ex => simp [runPowerflow, hc, hx]
        · have hc2 : s.net.converged = false := by simpa using hc
          simp [runPowerflow, hc2]

/-- C8 witness: explicit 7 is used verbatim and recorded; `unknown-xyz`
falls back to 30. -/
theorem c8_witness :
    resolveMaxIteration "nr" (some 7) = 7 ∧
    resolveMaxIteration "nr" none = 10 ∧
    resolveMaxIteration "iwamoto_nr" none = 10 ∧
    resolveMaxIteration "bfsw" none = 100 ∧
    resolveMaxIteration "gs" none = 1000 ∧
    resolveMaxIteration "fdbx" none = 30 ∧
    resolveMaxIteration "fdxb" none = 30 ∧
    resolveMaxIteration "unknown-xyz" none = DEFAULT_ITERATION_FALLBACK ∧
    (runPowerflow "nr" "auto" 1 (some 7) (Except.error "boom") extractOk
        0).calculation_log.map CalculationLog.max_iteration =
      some (resolveMaxIteration "nr" (some 7)) :=
  c8_iteration_resolution "nr" "unknown-xyz" "auto" 1 0 7 (some 7)
    (Except.error "boom") extractOk (by decide)

/-- Every format tag `detect_format` can return is one of the four
dispatched in `load_network`. -/
theorem detect_format_mem (filename f : String)
    (h : detect_format filename = some f) :
    (["json", "excel", "pickle", "sqlite"].contains f) = true := by
  simp only [detect_format] at h
  cases hf : FILE_FORMATS.find?
      (fun fe => fe.2.contains (lowerString (fileSuffix filename))) with
  | none => rw [hf] at h; simp at h
  | some fe =>
      rw [hf] at h
      simp at h
      have hmem := List.mem_of_find?_eq_some hf
      rw [show FILE_FORMATS = [("json", [".json"]), ("excel", [".xlsx", ".xls"]),
        ("pickle", [".p", ".pkl", ".pickle"]), ("sqlite", [".sqlite", ".db"])] from rfl] at hmem
      simp only [List.mem_cons, List.not_mem_nil, or_false] at hmem
      subst h
      rcases hmem with h1 | h1 | h1 | h1 <;> (rw [h1]; decide)

/-- C9: whenever the filename's extension is supported and the format
codec deserializes the content to a network with zero buses, `load_network`
fails with the `ValueError` text `Network must contain at least one bus`
and returns no model. -/
theorem c9_zero_bus_rejected (codec : Codec) (content : List Nat)
    (filename tmp_path fmt : String) (fs : ScratchState) (n : PPNet)
    (hfmt : detect_format filename = some fmt)
    (hnet : codec fmt content = Except.ok (LoadedObj.net n))
    (hbus : n.n_bus = 0) :
    (load_network codec content filename tmp_path fs).1 =
      Except.error "Network must contain at least one bus" := by
  have hc : fmt = "json" ∨ fmt = "excel" ∨ fmt = "pickle" ∨ fmt = "sqlite" := by
    simpa using detect_format_mem filename fmt hfmt
  rcases hc with rfl | rfl | rfl | rfl <;> simp [load_network, hfmt, hnet, hbus]

/-- C9 witness: a json upload that deserializes to a zero-bus network is
rejected. -/
theorem c9_witness :
    detect_format "grid.json" = some "json" ∧
    zeroBusCodec "json" [1, 2] = Except.ok (LoadedObj.net { n_bus := 0, n_line := 0 }) ∧
    (load_network zeroBusCodec [1, 2] "grid.json" "scratch-1" ⟨[]⟩).1 =
      Except.error "Network must contain at least one bus" :=
  ⟨by decide, rfl,
    c9_zero_bus_rejected zeroBusCodec [1, 2] "grid.json" "scratch-1" "json" ⟨[]⟩
      { n_bus := 0, n_line := 0 } (by decide) rfl rfl⟩

/-- C10: on every path of `load_network` — success, any failure, and the
pre-scratch unsupported-format exit alike — the scratch storage at return
equals the scratch storage at entry: the scratch file holding the uploaded
bytes is deleted before the call returns (the `finally` clause). -/
theorem c10_scratch_reclaimed (codec : Codec) (content : List Nat)
    (filename tmp_path : String) (fs : ScratchState) :
    ((load_network codec content filename tmp_path fs).2).files = fs.files := by
  unfold load_network
  cases detect_format filename with
  | none => rfl
  | some fmt => simp

end PandapowerWeb
